import Mathlib

/-!
Verification of the FAQ retrieval-answering pipeline
(`src/workflows/faq_agent/faq_processor.py`).

Shallow embedding conventions:
- Python floats are modelled as exact rationals (`ℚ`); `round(x, 2)` is
  modelled as `round2` below (rounding `100 * x` to the nearest integer).
- External services (the LLM completion API, the vector store similarity
  search, the filesystem) are modelled as oracles; a call that may raise a
  Python exception returns `Except Unit _`, and a `try/except` block in the
  source becomes a `match` on that result.
- Python `str.split()` (no argument) is `pyWords` (whitespace-separated
  words, empties dropped); `str.strip()` is `pyStrip`; `"?" in s` for the
  one-character needle is `pyContains s qmark`; `s.split(".")` is
  `pySplitOn s dot`; `"\n\n".join l` is `pyJoin "\n\n" l`. These are
  structural recursions over `String.data` so that concrete instances
  evaluate in the kernel.
-/

namespace FAQAgent

/-- A retrieved document chunk (langchain `Document`); only its
`page_content` field is used by the FAQ processor. -/
structure Doc where
  page_content : String
deriving Repr, DecidableEq

/-- Oracle for `vectorstore.similarity_search(query, k)`: may raise. -/
abbrev SearchFn := String → Nat → Except Unit (List Doc)

/-- The external services `answer_question` interacts with: the completion
LLM (prompt in, completion out, may raise) and the optional vector store
(`self.vectorstore`, `None` when no knowledge base was loaded). -/
structure Services where
  llm : String → Except Unit String
  vectorstore : Option SearchFn

/-- Result record (pydantic model `FAQResponse`). -/
structure FAQResponse where
  answer : String
  confidence : ℚ
  source : String
  related_questions : List String
deriving Repr, DecidableEq

/-- Count of maximal non-whitespace runs in a character list; the Bool flag
records whether the previous character was inside a word. -/
def wordCountAux : List Char → Bool → Nat
  | [], _ => 0
  | c :: rest, inWord =>
    if c.isWhitespace then wordCountAux rest false
    else (if inWord then 0 else 1) + wordCountAux rest true

/-- Python `len(s.split())` with no argument: the number of
whitespace-separated words of `s`. -/
def pyWords (s : String) : Nat :=
  wordCountAux s.data false

/-- Split a character list at every occurrence of `sep`, keeping empty
pieces, as Python `s.split(sep)` does for a one-character separator. -/
def splitOnCharAux (sep : Char) : List Char → List (List Char)
  | [] => [[]]
  | c :: rest =>
    if c = sep then [] :: splitOnCharAux sep rest
    else
      match splitOnCharAux sep rest with
      | [] => [[c]]
      | piece :: pieces => (c :: piece) :: pieces

/-- Python `s.split(sep)` for a one-character separator `sep`. -/
def pySplitOn (s : String) (sep : Char) : List String :=
  (splitOnCharAux sep s.data).map (fun l => ⟨l⟩)

/-- Python `sep.join(parts)`. -/
def pyJoin (sep : String) : List String → String
  | [] => ""
  | [s] => s
  | s :: rest => s ++ sep ++ pyJoin sep rest

/-- Python `str.strip()`: drop leading and trailing whitespace. -/
def pyStrip (s : String) : String :=
  ⟨((s.data.dropWhile Char.isWhitespace).reverse.dropWhile
      Char.isWhitespace).reverse⟩

/-- Python `c in s` for a one-character needle `c`: character membership. -/
def pyContains (s : String) (c : Char) : Bool :=
  s.data.contains c

/-- Python `round(q, 2)` (modelled over exact rationals). -/
def round2 (q : ℚ) : ℚ :=
  ((round (q * 100) : ℤ) : ℚ) / 100

/-- The placeholder context returned by `_get_relevant_context` when
`self.vectorstore` is `None` (source line 182). -/
def noKnowledgeBase : String := "No knowledge base available."

/-- The fixed fallback string of `_get_relevant_context` when the
similarity search raises (source line 197). -/
def retrievalErrorContext : String := "Error retrieving relevant information."

/-- The fixed apology answer of the `except` branch of `answer_question`
(source line 163). -/
def apologyAnswer : String :=
  "I apologize, but I\x27m having trouble processing your question. Please contact our support team for assistance."

/-- The full error response returned by the `except` branch of
`answer_question` (source lines 162-167). -/
def errorResponse : FAQResponse :=
  { answer := apologyAnswer
    confidence := 0
    source := "error"
    related_questions := [] }

/-- `FAQProcessor._get_business_info` (source lines 199-206). -/
def _get_business_info : String :=
  "\n        We are a small business focused on providing excellent customer service.\n        Our business hours are Monday-Friday 9AM-5PM.\n        We aim to respond to all inquiries within 24 hours.\n        For urgent matters, please call our support line.\n        "

/-- The classification prompt template (source lines 64-77) filled with a
question, as the `PromptTemplate` substitution produces it. -/
def classification_prompt (question : String) : String :=
  "\n            Classify this customer question into one of these categories:\n            - product_info: Questions about products or services\n            - support: Technical support or troubleshooting\n            - billing: Questions about pricing, payments, or billing\n            - general: General inquiries or other questions\n            \n            Question: "
    ++ question
    ++ "\n            \n            Respond with just the category name:\n            "

/-- The FAQ answer prompt template (source lines 41-61) filled with
question, context and business info. -/
def faq_prompt (question context business_info : String) : String :=
  "\n            You are a helpful customer service representative. Answer this customer question based on the provided context and business information.\n            \n            Customer Question: "
    ++ question
    ++ "\n            \n            Relevant Context: "
    ++ context
    ++ "\n            \n            Business Information: "
    ++ business_info
    ++ "\n            \n            Guidelines:\n            - Provide a clear, helpful answer\n            - If you cannot find the answer in the context, say so politely\n            - Be professional and friendly\n            - Include relevant details but keep it concise\n            - If appropriate, suggest next steps or additional resources\n            \n            Answer:\n            "

/-- `FAQProcessor._calculate_confidence` (source lines 208-224). -/
def _calculate_confidence (question context : String) : ℚ :=
  if context = "" ∨ context = noKnowledgeBase then
    3/10
  else
    let context_length : ℚ := pyWords context
    let question_length : Nat := pyWords question
    let base_confidence : ℚ := min (9/10) (1/2 + (context_length / 1000) * (4/10))
    let base_confidence := if question_length > 10 then base_confidence * (9/10) else base_confidence
    round2 base_confidence

/-- `FAQProcessor._classify_question` (source lines 169-177): ask the LLM,
strip and lowercase the reply; on any exception return `"general"`. -/
def _classify_question (llm : String → Except Unit String) (question : String) : String :=
  match llm (classification_prompt question) with
  | .ok result => ⟨(pyStrip result).data.map Char.toLower⟩
  | .error _ => "general"

/-- `FAQProcessor._get_relevant_context` (source lines 179-197): placeholder
when no vector store, top-3 chunks joined by blank lines, fixed error
string when the search raises. -/
def _get_relevant_context (vectorstore : Option SearchFn) (question : String) : String :=
  match vectorstore with
  | none => noKnowledgeBase
  | some search =>
    match search question 3 with
    | .ok docs => pyJoin "\n\n" (docs.map (·.page_content))
    | .error _ => retrievalErrorContext

/-- Inner loop of `_get_related_questions` (source lines 242-247): walk the
period-split sentences of one chunk, appending each stripped sentence that
contains a question mark and is longer than 10 characters; `break` as soon
as the accumulator reaches length 3 right after an append. -/
def relatedInner (sentences : List String) (related : List String) : List String :=
  match sentences with
  | [] => related
  | sentence :: rest =>
    if pyContains sentence '?' ∧ (pyStrip sentence).length > 10 then
      let related := related ++ [pyStrip sentence]
      if related.length ≥ 3 then related else relatedInner rest related
    else relatedInner rest related

/-- Outer loop of `_get_related_questions` (source lines 237-247): for each
chunk whose content contains a question mark, run the sentence scan. -/
def relatedOuter (docs : List Doc) (related : List String) : List String :=
  match docs with
  | [] => related
  | doc :: rest =>
    let content := doc.page_content
    let related := if pyContains content '?' then relatedInner (pySplitOn content '.') related else related
    relatedOuter rest related

/-- `FAQProcessor._get_related_questions` (source lines 226-253): empty when
no vector store or when the k=5 search raises; otherwise the scan of the
top-5 chunks, truncated to 3. -/
def _get_related_questions (vectorstore : Option SearchFn) (question : String) : List String :=
  match vectorstore with
  | none => []
  | some search =>
    match search question 5 with
    | .ok docs => (relatedOuter docs []).take 3
    | .error _ => []

/-- The combined context of `answer_question` (source line 132):
caller context, blank line, retrieved context - or just the retrieved
context when the caller context is empty (falsy). -/
def full_context (context relevant_context : String) : String :=
  if context ≠ "" then context ++ "\n\n" ++ relevant_context else relevant_context

set_option linter.unusedVariables false in
/-- `FAQProcessor.answer_question` (source lines 122-167). Of the steps
inside its `try`, `_classify_question`, `_get_relevant_context` and
`_get_related_questions` catch their own exceptions, so the only raising
step is the completion call on the filled FAQ prompt (line 141); its
failure takes the `except` branch. The classification result is bound but
never consumed downstream, exactly as in the source. -/
def answer_question (svc : Services) (question : String) (context : String) : FAQResponse :=
  let question_type := _classify_question svc.llm question
  let relevant_context := _get_relevant_context svc.vectorstore question
  let fullCtx := full_context context relevant_context
  let business_info := _get_business_info
  match svc.llm (faq_prompt question fullCtx business_info) with
  | .error _ => errorResponse
  | .ok answer =>
    let confidence := _calculate_confidence question relevant_context
    let related_questions := _get_related_questions svc.vectorstore question
    { answer := pyStrip answer
      confidence := confidence
      source := "knowledge_base"
      related_questions := related_questions }

/-- The three knowledge base files (source lines 88-92). -/
def faq_files : List String :=
  ["data/knowledge_base/faq.txt", "data/knowledge_base/products.txt", "data/knowledge_base/support.txt"]

/-- Filesystem oracle for `load_knowledge_base` and `add_faq_entry`:
`makedirs` for the knowledge-base directory, file existence, per-file
document loading (`TextLoader(...).load()`), and chunk-split plus index
build (`split_documents` + `FAISS.from_documents`); each fallible step may
raise. -/
structure LoadEnv where
  makedirs : Except Unit Unit
  file_exists : String → Bool
  loadDocs : String → Except Unit (List Doc)
  buildIndex : List Doc → Except Unit SearchFn

/-- `FAQProcessor.load_knowledge_base` (source lines 79-120): per-file load
failures are caught and skipped (inner `except`, line 100); any other
failure is caught by the outer `except` (line 118) which sets the store to
`None`; an empty document list also yields `None`. The function itself
never raises. -/
def load_knowledge_base (env : LoadEnv) : Option SearchFn :=
  match env.makedirs with
  | .error _ => none
  | .ok _ =>
    let documents := faq_files.foldl
      (fun acc fp =>
        if env.file_exists fp then
          match env.loadDocs fp with
          | .ok docs => acc ++ docs
          | .error _ => acc
        else acc)
      []
    if documents.isEmpty then none
    else
      match env.buildIndex documents with
      | .ok vs => some vs
      | .error _ => none

/-- The FAQ entry string built by `add_faq_entry` (source line 259). -/
def faq_entry_string (question answer category : String) : String :=
  "Q: " ++ question ++ "\nA: " ++ answer ++ "\nCategory: " ++ category ++ "\n\n"

/-- `FAQProcessor.add_faq_entry` (source lines 255-276): append the entry to
the FAQ file (the append oracle covers `makedirs` + `open` + `write`); on
an exception return `False` with the store unchanged; otherwise reload the
knowledge base and return `True`. Returns the flag and the new store. -/
def add_faq_entry (appendEntry : String → Except Unit Unit) (env : LoadEnv)
    (vectorstore : Option SearchFn) (question answer : String) (category : String) :
    Bool × Option SearchFn :=
  match appendEntry (faq_entry_string question answer category) with
  | .error _ => (false, vectorstore)
  | .ok _ => (true, load_knowledge_base env)

/-- The confidence formula as the specification words it: 0.3 for an empty
or placeholder context, otherwise
`round(min(0.9, 0.5 + (cwc / 1000) * 0.4) * (0.9 if qwc > 10 else 1.0), 2)`
with `cwc`/`qwc` the context/question word counts. Stated independently of
`_calculate_confidence` so the two can be compared. -/
def confidence_spec (question context : String) : ℚ :=
  if context = "" ∨ context = noKnowledgeBase then
    3/10
  else
    round2 (min (9/10) (1/2 + ((pyWords context : ℚ) / 1000) * (4/10)) *
      (if pyWords question > 10 then 9/10 else 1))

/-- Boolean form of the sentence test of `_get_related_questions`:
contains a question mark and is longer than 10 characters once stripped. -/
def questionFilter (s : String) : Bool :=
  pyContains s '?' && decide ((pyStrip s).length > 10)

/-- The stripped qualifying sentences of a sentence list, in order. -/
def sentenceQuestions (sentences : List String) : List String :=
  (sentences.filter questionFilter).map pyStrip

/-- The qualifying sentences contributed by one chunk: its period-split
sentences that pass `questionFilter`, stripped, in order (empty when the
chunk has no question mark at all). -/
def docQuestions (d : Doc) : List String :=
  if pyContains d.page_content '?' then
    sentenceQuestions (pySplitOn d.page_content '.')
  else []

/-- All qualifying sentences of the retrieved chunks, in chunk order. -/
def relatedCandidates (docs : List Doc) : List String :=
  (docs.map docQuestions).flatten

/-- Services used by concrete instantiations: completion always raises, no
knowledge index. -/
def svcFailAll : Services := ⟨fun _ => .error (), none⟩

/-- Services: completion always succeeds, no knowledge index. -/
def svcOkNone : Services := ⟨fun _ => .ok "All good.", none⟩

/-- Services: completion raises exactly on the classification prompt for
"Hi", succeeds elsewhere; no knowledge index. -/
def svcClsFail : Services :=
  ⟨fun p => if p = classification_prompt "Hi" then .error () else .ok "Classified fine.", none⟩

/-- A similarity search that always raises. -/
def searchFail : SearchFn := fun _ _ => .error ()

/-- Services: completion succeeds, index present but every search raises. -/
def svcSearchFail : Services := ⟨fun _ => .ok "Answer.", some searchFail⟩

/-- A chunk holding one long question sentence. -/
def docReset : Doc := ⟨"How do I reset my password? Contact support."⟩

/-- Services: completion succeeds, index returns the single chunk
`docReset` for every query. -/
def svcOneDoc : Services := ⟨fun _ => .ok "ans", some (fun _ _ => .ok [docReset])⟩

/-- File-append oracle that always succeeds. -/
def appendOk : String → Except Unit Unit := fun _ => .ok ()

/-- File-append oracle that always raises. -/
def appendFail : String → Except Unit Unit := fun _ => .error ()

/-- Load environment whose index build always raises (so a reload fails
internally and leaves the store `None`). -/
def envFailBuild : LoadEnv :=
  ⟨.ok (), fun _ => true, fun _ => .ok [⟨"doc"⟩], fun _ => .error ()⟩

/-- Rounding to the nearest integer is monotone. -/
lemma round_mono {a b : ℚ} (h : a ≤ b) : round a ≤ round b := by
  rw [round_eq, round_eq]
  exact Int.floor_le_floor (by linarith)

/-- `round2` is monotone. -/
lemma round2_mono {a b : ℚ} (h : a ≤ b) : round2 a ≤ round2 b := by
  unfold round2
  have hr : round (a * 100) ≤ round (b * 100) := round_mono (by linarith)
  gcongr

/-- `round2` of a nonnegative number is nonnegative. -/
lemma round2_nonneg {a : ℚ} (h : 0 ≤ a) : 0 ≤ round2 a := by
  have h0 : round2 0 = 0 := by unfold round2; norm_num
  have := round2_mono h
  linarith

/-- `round2` never exceeds 0.9 on inputs at most 0.9. -/
lemma round2_le_cap {a : ℚ} (h : a ≤ 9/10) : round2 a ≤ 9/10 := by
  have h9 : round2 (9/10) = 9/10 := by
    unfold round2
    rw [show (9/10 : ℚ) * 100 = 90 by norm_num]
    rw [show round (90 : ℚ) = 90 from round_ofNat 90]
    norm_num
  have := round2_mono h
  linarith

/-- `round2` is strict across a gap bigger than one hundredth. -/
lemma round2_strict {a b : ℚ} (h : a + 1/100 < b) : round2 a < round2 b := by
  unfold round2
  have ha := abs_sub_round (a * 100)
  have hb := abs_sub_round (b * 100)
  rw [abs_le] at ha hb
  have : ((round (a * 100) : ℤ) : ℚ) < ((round (b * 100) : ℤ) : ℚ) := by
    have h1 : ((round (a * 100) : ℤ) : ℚ) ≤ a * 100 + 1/2 := by linarith [ha.1]
    have h2 : b * 100 - 1/2 ≤ ((round (b * 100) : ℤ) : ℚ) := by linarith [hb.2]
    linarith
  gcongr

/-- Exact value of `round2` certified by floor bounds. -/
lemma round2_eq_of (q : ℚ) (n : ℤ) (h1 : (n : ℚ) ≤ q * 100 + 1/2)
    (h2 : q * 100 + 1/2 < n + 1) : round2 q = (n : ℚ) / 100 := by
  unfold round2
  rw [round_eq, Int.floor_eq_iff.mpr ⟨h1, by exact_mod_cast h2⟩]

/-- The non-degenerate branch of `_calculate_confidence`, written out. -/
lemma calculate_confidence_of_not_degenerate (q c : String)
    (h : ¬(c = "" ∨ c = noKnowledgeBase)) :
    _calculate_confidence q c =
      round2 (if pyWords q > 10 then
          min (9/10) (1/2 + ((pyWords c : ℚ) / 1000) * (4/10)) * (9/10)
        else
          min (9/10) (1/2 + ((pyWords c : ℚ) / 1000) * (4/10))) := by
  simp only [_calculate_confidence, if_neg h]

/-- The capped base confidence lies between 0.5 and 0.9. -/
lemma base_confidence_bounds (c : String) :
    1/2 ≤ min (9/10 : ℚ) (1/2 + ((pyWords c : ℚ) / 1000) * (4/10)) ∧
      min (9/10 : ℚ) (1/2 + ((pyWords c : ℚ) / 1000) * (4/10)) ≤ 9/10 := by
  constructor
  · apply le_min (by norm_num)
    have : (0 : ℚ) ≤ ((pyWords c : ℚ) / 1000) * (4/10) := by positivity
    linarith
  · exact min_le_left _ _

/-- `_calculate_confidence` always lies in [0, 0.9]. -/
lemma calculate_confidence_bounds (q c : String) :
    0 ≤ _calculate_confidence q c ∧ _calculate_confidence q c ≤ 9/10 := by
  by_cases h : c = "" ∨ c = noKnowledgeBase
  · simp only [_calculate_confidence, if_pos h]
    norm_num
  · rw [calculate_confidence_of_not_degenerate q c h]
    obtain ⟨hlo, hhi⟩ := base_confidence_bounds c
    split
    · exact ⟨round2_nonneg (by nlinarith), round2_le_cap (by nlinarith)⟩
    · exact ⟨round2_nonneg (by linarith), round2_le_cap hhi⟩

/-- C1. The confidence heuristic returns 0.3 on an empty or placeholder
context, and otherwise rounds
`min(0.9, 0.5 + (context words / 1000) * 0.4) * (0.9 if question words > 10 else 1.0)`
to 2 decimal places: `_calculate_confidence` coincides with the formula as
the specification states it, for every question and context. -/
theorem calculate_confidence_matches_spec (q c : String) :
    _calculate_confidence q c = confidence_spec q c := by
  by_cases h : c = "" ∨ c = noKnowledgeBase
  · simp only [_calculate_confidence, confidence_spec, if_pos h]
  · rw [calculate_confidence_of_not_degenerate q c h]
    simp only [confidence_spec, if_neg h]
    split <;> ring_nf

/-- C6. For a fixed question of at most 10 words, the confidence heuristic
is monotonically non-decreasing in the context word count (both contexts
non-empty and different from the placeholder). -/
theorem calculate_confidence_monotone (q A B : String)
    (hq : pyWords q ≤ 10)
    (hA1 : A ≠ "") (hA2 : A ≠ noKnowledgeBase)
    (hB1 : B ≠ "") (hB2 : B ≠ noKnowledgeBase)
    (hw : pyWords A ≤ pyWords B) :
    _calculate_confidence q A ≤ _calculate_confidence q B := by
  rw [calculate_confidence_of_not_degenerate q A (by push_neg; exact ⟨hA1, hA2⟩),
    calculate_confidence_of_not_degenerate q B (by push_neg; exact ⟨hB1, hB2⟩)]
  have hq10 : ¬ pyWords q > 10 := by omega
  rw [if_neg hq10, if_neg hq10]
  apply round2_mono
  apply min_le_min le_rfl
  have : (pyWords A : ℚ) ≤ (pyWords B : ℚ) := by exact_mod_cast hw
  nlinarith

/-- C6 witness: concrete monotone instance with contexts of 2 and 3 words. -/
theorem calculate_confidence_monotone_witness :
    _calculate_confidence "Hi there" "alpha beta" ≤
      _calculate_confidence "Hi there" "alpha beta gamma" :=
  calculate_confidence_monotone "Hi there" "alpha beta" "alpha beta gamma"
    (by decide) (by decide) (by decide) (by decide) (by decide) (by decide)

/-- C7. With the same non-empty, non-placeholder context, a 15-word
question scores strictly lower confidence than a 5-word one: the 0.9
factor survives the rounding to 2 decimal places. -/
theorem calculate_confidence_long_question_strict (q5 q15 c : String)
    (h5 : pyWords q5 = 5) (h15 : pyWords q15 = 15)
    (hc1 : c ≠ "") (hc2 : c ≠ noKnowledgeBase) :
    _calculate_confidence q15 c < _calculate_confidence q5 c := by
  rw [calculate_confidence_of_not_degenerate q15 c (by push_neg; exact ⟨hc1, hc2⟩),
    calculate_confidence_of_not_degenerate q5 c (by push_neg; exact ⟨hc1, hc2⟩)]
  rw [if_pos (by omega), if_neg (by omega)]
  obtain ⟨hlo, _⟩ := base_confidence_bounds c
  apply round2_strict
  nlinarith

/-- C7 witness: concrete 5-word versus 15-word questions on one context. -/
theorem calculate_confidence_long_question_strict_witness :
    _calculate_confidence "a b c d e f g h i j k l m n o" "some context here" <
      _calculate_confidence "a b c d e" "some context here" :=
  calculate_confidence_long_question_strict "a b c d e"
    "a b c d e f g h i j k l m n o" "some context here"
    (by decide) (by decide) (by decide) (by decide)

/-- C2. When the completion call of the answering step raises,
`answer_question` returns exactly the fixed apology answer, confidence 0.0,
source "error" and an empty related-questions list - no partial result.
In this embedding the completion call on the filled FAQ prompt is the only
step of the `try` block whose exception reaches the outer handler: the
classification, retrieval and related-questions steps catch their own. -/
theorem answer_question_error_path (svc : Services) (q c : String)
    (h : svc.llm (faq_prompt q
        (full_context c (_get_relevant_context svc.vectorstore q))
        _get_business_info) = .error ()) :
    answer_question svc q c =
      { answer := apologyAnswer
        confidence := 0
        source := "error"
        related_questions := [] } := by
  simp only [answer_question, h, errorResponse]

/-- C2 witness: a completion service that always raises yields exactly the
error response. -/
theorem answer_question_error_path_witness :
    answer_question svcFailAll "What is this?" "" =
      { answer := apologyAnswer
        confidence := 0
        source := "error"
        related_questions := [] } :=
  answer_question_error_path svcFailAll "What is this?" "" rfl

/-- C3. With no knowledge index and a completion service that does not
raise, `answer_question` returns confidence exactly 0.3 and source
"knowledge_base"; the answer is the completion output for the prompt built
from the placeholder context, so the completion step is still invoked
rather than short-circuited, for any caller-supplied context. -/
theorem answer_question_no_index (svc : Services) (q c a : String)
    (hvs : svc.vectorstore = none)
    (hllm : svc.llm (faq_prompt q (full_context c noKnowledgeBase)
        _get_business_info) = .ok a) :
    answer_question svc q c =
      { answer := pyStrip a
        confidence := 3/10
        source := "knowledge_base"
        related_questions := [] } := by
  have hctx : _get_relevant_context svc.vectorstore q = noKnowledgeBase := by
    rw [hvs]; rfl
  have hconf : _calculate_confidence q noKnowledgeBase = 3/10 := by
    simp [_calculate_confidence]
  have hrel : _get_related_questions svc.vectorstore q = [] := by
    rw [hvs]; rfl
  simp only [answer_question, hctx, hllm, hconf, hrel]

/-- C3 witness: empty knowledge base, succeeding completion service. -/
theorem answer_question_no_index_witness :
    answer_question svcOkNone "Hi" "extra context" =
      { answer := pyStrip "All good."
        confidence := 3/10
        source := "knowledge_base"
        related_questions := [] } :=
  answer_question_no_index svcOkNone "Hi" "extra context" "All good." rfl rfl

/-- C8. When the classification completion call raises, the classification
step returns "general", and the pipeline still reaches the retrieval and
answering steps: provided the answering completion call succeeds, the
result is the normal knowledge-base response, not the failed state. -/
theorem classification_failure_continues (svc : Services) (q c a : String)
    (hcls : svc.llm (classification_prompt q) = .error ())
    (hans : svc.llm (faq_prompt q
        (full_context c (_get_relevant_context svc.vectorstore q))
        _get_business_info) = .ok a) :
    _classify_question svc.llm q = "general" ∧
    answer_question svc q c =
      { answer := pyStrip a
        confidence := _calculate_confidence q (_get_relevant_context svc.vectorstore q)
        source := "knowledge_base"
        related_questions := _get_related_questions svc.vectorstore q } := by
  constructor
  · simp only [_classify_question, hcls]
  · simp only [answer_question, hans]

set_option maxRecDepth 8000 in
/-- C8 witness: the classification prompt for "Hi" raises while every other
completion succeeds; the pipeline still answers from the knowledge base. -/
theorem classification_failure_continues_witness :
    _classify_question svcClsFail.llm "Hi" = "general" ∧
    answer_question svcClsFail "Hi" "" =
      { answer := pyStrip "Classified fine."
        confidence := _calculate_confidence "Hi"
          (_get_relevant_context svcClsFail.vectorstore "Hi")
        source := "knowledge_base"
        related_questions := _get_related_questions svcClsFail.vectorstore "Hi" } :=
  classification_failure_continues svcClsFail "Hi" "" "Classified fine."
    rfl rfl

/-- Confidence computed on the fixed retrieval-error string: that string
has 4 words, so questions of at most 10 words score exactly 0.5. -/
lemma calculate_confidence_retrieval_error (q : String) (hq : pyWords q ≤ 10) :
    _calculate_confidence q retrievalErrorContext = 1/2 := by
  have hw : pyWords retrievalErrorContext = 4 := by decide
  rw [calculate_confidence_of_not_degenerate q retrievalErrorContext (by decide)]
  rw [if_neg (by omega), hw]
  rw [min_eq_right (by norm_num)]
  rw [round2_eq_of _ 50 (by norm_num) (by norm_num)]
  norm_num

/-- C9. When an index exists but the similarity search raises, the pipeline
does not fail: the retrieval step returns the fixed error string, and if
the answering completion succeeds the result still has source
"knowledge_base" with confidence computed from that 4-word string - 0.5
for questions of at most 10 words, not the 0.3 no-index default. -/
theorem retrieval_failure_path (svc : Services) (f : SearchFn) (q c a : String)
    (hvs : svc.vectorstore = some f)
    (hsearch : f q 3 = .error ())
    (hans : svc.llm (faq_prompt q (full_context c retrievalErrorContext)
        _get_business_info) = .ok a)
    (hq : pyWords q ≤ 10) :
    _get_relevant_context svc.vectorstore q = retrievalErrorContext ∧
    (answer_question svc q c).source = "knowledge_base" ∧
    (answer_question svc q c).confidence = 1/2 := by
  have hctx : _get_relevant_context svc.vectorstore q = retrievalErrorContext := by
    simp only [_get_relevant_context, hvs, hsearch]
  refine ⟨hctx, ?_, ?_⟩
  · simp only [answer_question, hctx, hans]
  · simp only [answer_question, hctx, hans]
    exact calculate_confidence_retrieval_error q hq

/-- C9 witness: index present, every search raises, completion succeeds. -/
theorem retrieval_failure_path_witness :
    _get_relevant_context svcSearchFail.vectorstore "When are you open?" =
      retrievalErrorContext ∧
    (answer_question svcSearchFail "When are you open?" "").source = "knowledge_base" ∧
    (answer_question svcSearchFail "When are you open?" "").confidence = 1/2 :=
  retrieval_failure_path svcSearchFail searchFail "When are you open?" "" "Answer."
    rfl rfl rfl (by decide)

/-- C10. `add_faq_entry` returns `False` exactly when appending the entry
to the FAQ file raises, and `True` otherwise - in particular even when the
subsequent reload fails internally, since `load_knowledge_base` catches its
own exceptions (every branch of its embedding returns a store, `None` on
failure) instead of propagating; on success the store is whatever the
reload produced. -/
theorem add_faq_entry_result (append : String → Except Unit Unit) (env : LoadEnv)
    (vs : Option SearchFn) (q a cat : String) :
    ((add_faq_entry append env vs q a cat).1 = true ↔
      append (faq_entry_string q a cat) = .ok ()) ∧
    (append (faq_entry_string q a cat) = .ok () →
      (add_faq_entry append env vs q a cat).2 = load_knowledge_base env) := by
  unfold add_faq_entry
  rcases h : append (faq_entry_string q a cat) with u | u
  · simp [h]
  · cases u
    simp [h]

/-- C10 witness: the append succeeds while the reload's index build raises;
`add_faq_entry` still returns `True` and the store becomes the reload's
result. -/
theorem add_faq_entry_result_witness :
    ((add_faq_entry appendOk envFailBuild none "q" "a" "general").1 = true ↔
      appendOk (faq_entry_string "q" "a" "general") = .ok ()) ∧
    (appendOk (faq_entry_string "q" "a" "general") = .ok () →
      (add_faq_entry appendOk envFailBuild none "q" "a" "general").2 =
        load_knowledge_base envFailBuild) :=
  add_faq_entry_result appendOk envFailBuild none "q" "a" "general"

/-- C5 counterexample: with no index and a completion service that raises,
`answer_question` takes the error path and its confidence is 0.0, not the
0.3 the claim requires whenever no index exists. -/
theorem confidence_not_default_on_error :
    svcFailAll.vectorstore = none ∧
    (answer_question svcFailAll "What are your hours?" "").confidence = 0 ∧
    (0 : ℚ) ≠ 3/10 :=
  ⟨rfl, rfl, by norm_num⟩

/-- C5 (amended). The confidence of every `answer_question` result lies in
[0.0, 0.9]; and it equals 0.3 whenever no index exists and the request does
not take the error path (the answering completion call succeeds). -/
theorem answer_question_confidence_invariant (svc : Services) (q c : String) :
    0 ≤ (answer_question svc q c).confidence ∧
    (answer_question svc q c).confidence ≤ 9/10 ∧
    (svc.vectorstore = none →
      ∀ a, svc.llm (faq_prompt q (full_context c noKnowledgeBase)
          _get_business_info) = .ok a →
        (answer_question svc q c).confidence = 3/10) := by
  rcases hllm : svc.llm (faq_prompt q
      (full_context c (_get_relevant_context svc.vectorstore q))
      _get_business_info) with e | a
  · cases e
    have hres : answer_question svc q c = errorResponse := by
      simp only [answer_question, hllm]
    refine ⟨by rw [hres]; norm_num [errorResponse], by rw [hres]; norm_num [errorResponse], ?_⟩
    intro hvs a ha
    rw [hvs] at hllm
    rw [show _get_relevant_context (none : Option SearchFn) q = noKnowledgeBase from rfl] at hllm
    rw [ha] at hllm
    simp at hllm
  · have hconf : (answer_question svc q c).confidence =
        _calculate_confidence q (_get_relevant_context svc.vectorstore q) := by
      simp only [answer_question, hllm]
    obtain ⟨h1, h2⟩ := calculate_confidence_bounds q (_get_relevant_context svc.vectorstore q)
    refine ⟨by rw [hconf]; exact h1, by rw [hconf]; exact h2, ?_⟩
    intro hvs _ _
    rw [hconf, hvs]
    simp [_get_relevant_context, _calculate_confidence]

/-- C5 witness: the bounds and the 0.3 no-index default at a concrete
service whose completion succeeds and whose index is absent. -/
theorem answer_question_confidence_invariant_witness :
    (answer_question svcOkNone "Hi" "").confidence = 3/10 :=
  (answer_question_confidence_invariant svcOkNone "Hi" "").2.2 rfl "All good." rfl

/-- A non-whitespace member of a list survives `dropWhile isWhitespace`. -/
lemma mem_dropWhile_of_mem {c : Char} {p : Char → Bool} {l : List Char}
    (h : c ∈ l) (hc : p c = false) : c ∈ l.dropWhile p := by
  induction l with
  | nil => cases h
  | cons a l ih =>
    rw [List.dropWhile_cons]
    split
    · rcases List.mem_cons.mp h with rfl | h2
      · simp_all
      · exact ih h2
    · exact h

/-- Stripping whitespace cannot remove a question mark. -/
lemma pyContains_pyStrip {s : String} (h : pyContains s '?' = true) :
    pyContains (pyStrip s) '?' = true := by
  have hw : Char.isWhitespace '?' = false := by decide
  simp only [pyContains, pyStrip] at h ⊢
  rw [List.elem_iff] at h ⊢
  rw [List.mem_reverse]
  apply mem_dropWhile_of_mem _ hw
  rw [List.mem_reverse]
  exact mem_dropWhile_of_mem h hw

/-- Lists agreeing on their first three elements keep agreeing after a
common suffix is appended. -/
lemma take3_append_congr (a b X : List String) (h : a.take 3 = b.take 3) :
    (a ++ X).take 3 = (b ++ X).take 3 := by
  have hlen : min 3 a.length = min 3 b.length := by
    have hl := congrArg List.length h
    simpa [List.length_take, Nat.min_comm] using hl
  rw [List.take_append_eq_append_take, List.take_append_eq_append_take, h,
    show 3 - a.length = 3 - b.length by omega]

/-- The sentence loop of `_get_related_questions`, seen through `take 3`:
despite the early `break`, the first three entries are the first three
qualifying stripped sentences appended to the accumulator. -/
lemma relatedInner_take (sentences : List String) (related : List String) :
    (relatedInner sentences related).take 3 =
      (related ++ sentenceQuestions sentences).take 3 := by
  induction sentences generalizing related with
  | nil => simp [relatedInner, sentenceQuestions]
  | cons s rest ih =>
    by_cases h : pyContains s '?' = true ∧ (pyStrip s).length > 10
    · have hf : questionFilter s = true := by
        simp [questionFilter, h.1, h.2]
      have hq : sentenceQuestions (s :: rest) = pyStrip s :: sentenceQuestions rest := by
        simp [sentenceQuestions, List.filter_cons, hf]
      simp only [relatedInner, if_pos h]
      by_cases h3 : (related ++ [pyStrip s]).length ≥ 3
      · rw [if_pos h3, hq,
          show related ++ pyStrip s :: sentenceQuestions rest =
            (related ++ [pyStrip s]) ++ sentenceQuestions rest by simp,
          List.take_append_of_le_length h3]
      · rw [if_neg h3, ih, hq]
        simp
    · have hf : questionFilter s = false := by
        cases hqf : questionFilter s
        · rfl
        · exfalso
          apply h
          simpa [questionFilter, Bool.and_eq_true, decide_eq_true_eq] using hqf
      have hq : sentenceQuestions (s :: rest) = sentenceQuestions rest := by
        simp [sentenceQuestions, List.filter_cons, hf]
      simp only [relatedInner, if_neg h]
      rw [ih, hq]

/-- The chunk loop of `_get_related_questions`, seen through `take 3`: the
first three entries are the first three qualifying sentences in chunk
order. -/
lemma relatedOuter_take (docs : List Doc) (related : List String) :
    (relatedOuter docs related).take 3 =
      (related ++ relatedCandidates docs).take 3 := by
  induction docs generalizing related with
  | nil => simp [relatedOuter, relatedCandidates]
  | cons d rest ih =>
    have hcand : relatedCandidates (d :: rest) = docQuestions d ++ relatedCandidates rest := by
      simp [relatedCandidates]
    simp only [relatedOuter]
    by_cases h : pyContains d.page_content '?' = true
    · rw [if_pos h, ih, hcand, docQuestions, if_pos h, ← List.append_assoc]
      exact take3_append_congr _ _ _ (relatedInner_take _ related)
    · rw [if_neg h, ih, hcand, docQuestions, if_neg h]
      simp

/-- Every candidate sentence contains a question mark and is longer than
10 characters. -/
lemma mem_relatedCandidates {docs : List Doc} {s : String}
    (hs : s ∈ relatedCandidates docs) :
    pyContains s '?' = true ∧ s.length > 10 := by
  simp only [relatedCandidates, List.mem_flatten, List.mem_map] at hs
  obtain ⟨l, ⟨d, _, rfl⟩, hl⟩ := hs
  unfold docQuestions at hl
  split at hl
  · simp only [sentenceQuestions, List.mem_map, List.mem_filter] at hl
    obtain ⟨t, ⟨_, ht⟩, rfl⟩ := hl
    simp only [questionFilter, Bool.and_eq_true, decide_eq_true_eq] at ht
    exact ⟨pyContains_pyStrip ht.1, ht.2⟩
  · cases hl

/-- Shape of `_get_related_questions`: at most 3 entries, each with a
question mark and longer than 10 characters, and when non-empty it is the
first three qualifying sentences of the successfully retrieved top-5
chunks, in chunk order. -/
lemma get_related_questions_spec (vs : Option SearchFn) (q : String) :
    (_get_related_questions vs q).length ≤ 3 ∧
    (∀ s ∈ _get_related_questions vs q, pyContains s '?' = true ∧ s.length > 10) ∧
    (_get_related_questions vs q ≠ [] →
      ∃ f docs, vs = some f ∧ f q 5 = .ok docs ∧
        _get_related_questions vs q = (relatedCandidates docs).take 3) := by
  match hvs : vs with
  | none => simp [_get_related_questions]
  | some f =>
    match hs : f q 5 with
    | .error e =>
      cases e
      simp [_get_related_questions, hs]
    | .ok docs =>
      have heq : _get_related_questions (some f) q = (relatedCandidates docs).take 3 := by
        simp only [_get_related_questions, hs]
        rw [relatedOuter_take]
        simp
      refine ⟨?_, ?_, ?_⟩
      · rw [heq]
        simp [List.length_take]
      · intro s hsm
        rw [heq] at hsm
        exact mem_relatedCandidates (List.mem_of_mem_take hsm)
      · intro _
        exact ⟨f, docs, rfl, hs, heq⟩

/-- C4. The related-questions list of every `answer_question` result has
length at most 3 and each element contains a literal question mark; the
elements are the stripped period-split sentences longer than 10 characters
of the top-5 retrieved chunks, in chunk order, capped at 3 (when the list
is non-empty the search necessarily succeeded and the list equals the
first three candidates). -/
theorem answer_question_related_questions (svc : Services) (q c : String) :
    ((answer_question svc q c).related_questions).length ≤ 3 ∧
    (∀ s ∈ (answer_question svc q c).related_questions,
      pyContains s '?' = true ∧ s.length > 10) ∧
    ((answer_question svc q c).related_questions ≠ [] →
      ∃ f docs, svc.vectorstore = some f ∧ f q 5 = .ok docs ∧
        (answer_question svc q c).related_questions = (relatedCandidates docs).take 3) := by
  have hr : (answer_question svc q c).related_questions = [] ∨
      (answer_question svc q c).related_questions =
        _get_related_questions svc.vectorstore q := by
    rcases hllm : svc.llm (faq_prompt q
        (full_context c (_get_relevant_context svc.vectorstore q))
        _get_business_info) with e | a
    · left
      simp [answer_question, hllm, errorResponse]
    · right
      simp [answer_question, hllm]
  rcases hr with hr | hr
  · rw [hr]
    simp
  · rw [hr]
    exact get_related_questions_spec svc.vectorstore q

/-- C4 witness: one chunk with one long question sentence; the element of
the resulting related-questions list contains a question mark and is longer
than 10 characters. -/
theorem answer_question_related_questions_witness :
    pyContains "How do I reset my password? Contact support" '?' = true ∧
    ("How do I reset my password? Contact support").length > 10 :=
  (answer_question_related_questions svcOneDoc "q" "").2.1
    "How do I reset my password? Contact support" (by decide)

end FAQAgent
